import Mathlib

/-!
Verification development for the Legacy backend's cognitive memory engine.

The Python sources under `apps/ai` (entity resolver, context loader,
friend profiler, chat/knowledge graphs, celery tasks) are shallowly
embedded below.  Machine floats of the source are modelled as exact
rationals, Django querysets as Lean lists kept in database order, and
the two external collaborators (the fuzzywuzzy `fuzz.ratio` similarity
function and the OpenAI completion service) are passed in as explicit
parameters, mirroring the spec's treatment of them as collaborators
reached through a request/response contract.
-/

/-!
Character-list based string primitives.  They mirror the Python string
operations the sources use (`lower`, `strip`, `startswith`, slicing,
`in`, `split`); ASCII case-folding suffices for the matching keys
involved.  They are stated over `String.data` so that concrete
counterexamples and witnesses reduce inside the kernel.
-/

/-- Python `s.lower()` (ASCII). -/
def str_lower (s : String) : String := ⟨s.data.map Char.toLower⟩

/-- Python `s.strip()`. -/
def str_trim (s : String) : String :=
  ⟨(((s.data.dropWhile Char.isWhitespace).reverse).dropWhile Char.isWhitespace).reverse⟩

/-- Python `s.startswith(p)`. -/
def str_starts_with (s p : String) : Bool := p.data.isPrefixOf s.data

/-- Python `s[n:]` (character slicing). -/
def str_drop (s : String) (n : Nat) : String := ⟨s.data.drop n⟩

/-- Python `s[:n]` (character slicing). -/
def str_take (s : String) (n : Nat) : String := ⟨s.data.take n⟩

/-- Python `len(s)` (characters). -/
def str_len (s : String) : Nat := s.data.length

/-- Python substring test `pat in s` (character-wise containment). -/
def str_contains_sub (s pat : String) : Bool :=
  (List.range (str_len s + 1)).any (fun i => pat.data.isPrefixOf (s.data.drop i))

/-- The characters of `l` before the first occurrence of `pat`; the whole
list when `pat` does not occur. -/
def take_before : List Char → List Char → List Char
  | [], _ => []
  | c :: rest, pat =>
    if pat.isPrefixOf (c :: rest) then [] else c :: take_before rest pat

/-- Python `s.split(pat)[0]` for a nonempty separator `pat`. -/
def str_before (s pat : String) : String := ⟨take_before s.data pat.data⟩

/-- A row of the `entities` table (apps/cognitive/models.py, class Entity).
Timestamps are abstract `Nat` ticks; the similarity-irrelevant columns
(`first_mentioned_at`) are omitted.  `id` stands for the UUID primary key. -/
structure Entity where
  id : Nat
  user_id : String
  name : String
  name_normalized : String
  entity_type : String
  aliases : List String
  summary : String
  relationship_to_user : String
  sentiment_score : ℚ
  importance_score : ℚ
  mention_count : Nat
  last_mentioned_at : Nat
  deriving Repr, DecidableEq

/-- The per-user entity table, in database iteration order. -/
abbrev EntityStore := List Entity

namespace EntityResolver

/-- `EntityResolver.SIMILARITY_THRESHOLD` (entity_resolver.py line 27). -/
def SIMILARITY_THRESHOLD : Nat := 85

/-- `EntityResolver._normalize_name`: lowercase, trim, then strip each of
the prefixes "my ", "the ", "a ", "our " in turn, then trim again. -/
def normalize_name (name : String) : String :=
  str_trim (["my ", "the ", "a ", "our "].foldl
    (fun acc p => if str_starts_with acc p then str_drop acc (str_len p) else acc)
    (str_trim (str_lower name)))

/-- `EntityResolver._exact_match`: first entity of this user with the given
normalized name and type (`filter(...).first()`). -/
def exact_match (store : EntityStore) (uid normalized etype : String) :
    Option Entity :=
  store.find? (fun e =>
    e.user_id == uid && e.name_normalized == normalized && e.entity_type == etype)

/-- One step of the best-match loop of `_fuzzy_match_name`:
`if score > self.SIMILARITY_THRESHOLD and score > best_score`. -/
def fuzzy_name_step (fuzz : String → String → Nat) (normalized : String)
    (best : Option Entity × Nat) (e : Entity) : Option Entity × Nat :=
  let score := fuzz normalized e.name_normalized
  if SIMILARITY_THRESHOLD < score && best.2 < score then (some e, score) else best

/-- `EntityResolver._fuzzy_match_name`: scan all entities of this user and
type, keeping the single highest score strictly above the threshold
(first maximum wins, because later equal scores fail `score > best_score`). -/
def fuzzy_match_name (fuzz : String → String → Nat) (store : EntityStore)
    (uid normalized etype : String) : Option Entity :=
  ((store.filter (fun e => e.user_id == uid && e.entity_type == etype)).foldl
    (fuzzy_name_step fuzz normalized) (none, 0)).1

/-- `EntityResolver._fuzzy_match_aliases`: first entity of this user and type
one of whose aliases scores strictly above the threshold. -/
def fuzzy_match_aliases (fuzz : String → String → Nat) (store : EntityStore)
    (uid normalized etype : String) : Option Entity :=
  (store.filter (fun e => e.user_id == uid && e.entity_type == etype)).find?
    (fun e => e.aliases.any (fun a => SIMILARITY_THRESHOLD < fuzz normalized (str_lower a)))

/-- `EntityResolver._add_alias_if_new`: append the raw mention name unless an
equal alias is already present (both exact and case-insensitive checks,
exactly as in the source). -/
def add_alias_if_new (e : Entity) (entity_name : String) : Entity :=
  if !(e.aliases.contains entity_name)
      && !((e.aliases.map str_lower).contains (str_lower entity_name)) then
    { e with aliases := e.aliases ++ [entity_name] }
  else e

/-- `_update_existing`: backfill the relationship only when one is supplied
and none is set (`if relationship and not entity.relationship_to_user`). -/
def apply_relationship (relationship : String) (e : Entity) : Entity :=
  if relationship != "" && e.relationship_to_user == "" then
    { e with relationship_to_user := relationship }
  else e

/-- `_update_existing`: blend the sentiment as a moving average when the new
score is nonzero (`if sentiment_score != 0`). -/
def apply_sentiment (sentiment_score : ℚ) (e : Entity) : Entity :=
  if sentiment_score != 0 then
    { e with sentiment_score := (e.sentiment_score + sentiment_score) / 2 }
  else e

/-- `_update_existing`: append the fact to the summary when it is nonempty,
not already a substring, and the current summary is under 500 chars. -/
def apply_fact (fact : String) (e : Entity) : Entity :=
  if fact != "" && !(str_contains_sub e.summary fact) then
    if str_len e.summary < 500 then
      { e with summary := str_trim (e.summary ++ "\n• " ++ fact) }
    else e
  else e

/-- `EntityResolver._update_existing`: bump the mention count, refresh the
timestamp, backfill relationship, blend sentiment, extend the summary, and
raise the importance by 0.05 capped at 1.0. -/
def update_existing (e : Entity) (fact relationship : String)
    (sentiment_score : ℚ) (now : Nat) : Entity :=
  let e := { e with mention_count := e.mention_count + 1, last_mentioned_at := now }
  let e := apply_relationship relationship e
  let e := apply_sentiment sentiment_score e
  let e := apply_fact fact e
  { e with importance_score := min 1 (e.importance_score + 1/20) }

/-- `EntityResolver._create_new`: fresh entity with the raw mention as name
and sole alias, importance 0.5, mention count 1. -/
def create_new (fresh_id : Nat) (uid entity_name normalized etype fact
    relationship : String) (sentiment_score : ℚ) (now : Nat) : Entity :=
  { id := fresh_id
    user_id := uid
    name := entity_name
    name_normalized := normalized
    entity_type := etype
    aliases := [entity_name]
    summary := fact
    relationship_to_user := relationship
    sentiment_score := sentiment_score
    importance_score := 1/2
    mention_count := 1
    last_mentioned_at := now }

/-- `entity.save()`: write the mutated row back by primary key. -/
def save_entity (store : EntityStore) (e : Entity) : EntityStore :=
  store.map (fun x => if x.id == e.id then e else x)

/-- Result of `EntityResolver.resolve`: the entity, the `was_created` flag,
and the entity table after the write. -/
structure ResolveResult where
  entity : Entity
  created : Bool
  store : EntityStore
  deriving Repr, DecidableEq

/-- `EntityResolver.resolve`: exact match, then fuzzy match on names, then
fuzzy match on aliases, else create.  The two fuzzy branches also add the
raw mention as an alias; the exact branch does not. -/
def resolve (fuzz : String → String → Nat) (store : EntityStore)
    (uid entity_name etype fact relationship : String) (sentiment_score : ℚ)
    (now fresh_id : Nat) : ResolveResult :=
  let normalized := normalize_name entity_name
  match exact_match store uid normalized etype with
  | some e =>
    let e := update_existing e fact relationship sentiment_score now
    ⟨e, false, save_entity store e⟩
  | none =>
    match fuzzy_match_name fuzz store uid normalized etype with
    | some e =>
      let e := add_alias_if_new e entity_name
      let e := update_existing e fact relationship sentiment_score now
      ⟨e, false, save_entity store e⟩
    | none =>
      match fuzzy_match_aliases fuzz store uid normalized etype with
      | some e =>
        let e := add_alias_if_new e entity_name
        let e := update_existing e fact relationship sentiment_score now
        ⟨e, false, save_entity store e⟩
      | none =>
        let e := create_new fresh_id uid entity_name normalized etype fact
          relationship sentiment_score now
        ⟨e, true, store ++ [e]⟩

end EntityResolver

/-- A row of the `entity_mentions` table (apps/cognitive/models.py,
class EntityMention).  The store is kept in `created_at` order, so
`order_by(-created_at)` is modelled by reversing it. -/
structure EntityMention where
  entity_id : Nat
  message_id : Nat
  chapter_id : String
  fact_snippet : String
  confidence : ℚ
  sentiment : ℚ
  deriving Repr, DecidableEq

abbrev MentionStore := List EntityMention

/-- A `Chapter` row (apps/libraries/models.py), restricted to the columns
the embedded code reads. -/
structure Chapter where
  id : String
  library_id : String
  title : String
  summary_text : String
  message_count : Nat
  deriving Repr, DecidableEq

namespace ContextLoader

/-- One element of `relevant_entities` in `get_llm_context` (step 4 of the
context loader); dict keys name/type/relationship/summary/recent_facts. -/
structure RelevantEntity where
  name : String
  etype : String
  relationship : String
  summary : String
  recent_facts : List String
  deriving Repr, DecidableEq

/-- The entity lookup of `get_llm_context` (context_loader.py lines
146-149): `Entity.objects.filter(user_id=..., name_normalized__icontains=
name.lower()).first()` — a case-insensitive substring query on the
normalized name, first row in table order. -/
def entity_icontains_match (store : EntityStore) (uid name : String) :
    Option Entity :=
  store.find? (fun e =>
    e.user_id == uid && str_contains_sub (str_lower e.name_normalized) (str_lower name))

/-- `EntityMention.objects.filter(entity=...).order_by(-created_at)[:5]`
mapped to fact snippets (context_loader.py lines 153-162). -/
def recent_facts (mentions : MentionStore) (eid : Nat) : List String :=
  (((mentions.filter (fun m => m.entity_id == eid)).reverse).take 5).map
    (fun m => m.fact_snippet)

/-- The entity-search loop of `get_llm_context` (context_loader.py lines
142-163): for each candidate name from `quick_ner`, run the `icontains`
lookup and, on a hit, attach the entity row and its five most recent
mention facts. -/
def entity_search (store : EntityStore) (mentions : MentionStore)
    (uid : String) (detected_names : List String) : List RelevantEntity :=
  detected_names.foldl
    (fun acc name =>
      match entity_icontains_match store uid name with
      | some e =>
        acc ++ [⟨e.name, e.entity_type, e.relationship_to_user, e.summary,
                recent_facts mentions e.id⟩]
      | none => acc)
    []

end ContextLoader

namespace Tasks

/-- `check_memory_compression` (tasks.py lines 68-87).  The result is
whether `compress_chapter_memory.delay` was enqueued; `none` models
`Chapter.DoesNotExist` (logged, nothing scheduled). -/
def check_memory_compression : Option Chapter → Bool
  | none => false
  | some chapter => 0 < chapter.message_count && chapter.message_count % 20 == 0

end Tasks

namespace ChatGraph

/-- Output of `analyze_message` (emotion_detector.py), carried through the
chat state; populated by the `analyze_input` stage. -/
structure MessageAnalysis where
  emotion : String
  life_event : Option String
  is_question : Bool
  is_short : Bool
  mentions_time : Bool
  deriving Repr, DecidableEq

/-- The `response_metadata` dict built by `generate_response`
(chat_graph.py lines 202-213). -/
structure ResponseMetadata where
  model : String
  tokens_used : Nat
  emotion_detected : String
  life_event_detected : Option String
  is_new_project : Bool
  is_new_chat : Bool
  entities_referenced : List String
  deriving Repr, DecidableEq

/-- The `metadata` JSON blob of a Message row: the user message carries the
analysis dict, the AI message carries the response metadata. -/
inductive MessageMeta where
  | user (emotion : String) (life_event : Option String) (analysis : MessageAnalysis)
  | ai (meta : ResponseMetadata)
  deriving Repr, DecidableEq

/-- A `Message` row (apps/chat/models.py), with an auto-increment id. -/
structure MessageRec where
  id : Nat
  chapter_id : String
  sender : String
  content : String
  meta : MessageMeta
  deriving Repr, DecidableEq

/-- The persistence slice `save_messages` touches: the message table, the
chapter table, and the id sequence. -/
structure ChatDb where
  messages : List MessageRec
  chapters : List Chapter
  next_id : Nat
  deriving Repr, DecidableEq

/-- The fields of `ChatState` (chat_graph.py) that the
`generate_response` and `save_messages` stages read or write. -/
structure ChatState where
  user_message : String
  chapter_id : String
  library_id : String
  user_id : String
  relevant_entity_names : Option (List String)
  is_new_project : Bool
  is_new_chat : Bool
  detected_emotion : String
  detected_life_event : Option String
  message_analysis : MessageAnalysis
  ai_response : String
  response_metadata : ResponseMetadata
  user_message_id : Option Nat
  ai_message_id : Option Nat
  deriving Repr, DecidableEq

/-- Completion-service response: generated text plus
`response.usage.total_tokens` (`none` models a missing usage object). -/
structure CompletionResult where
  content : String
  usage : Option Nat
  deriving Repr, DecidableEq

/-- The degraded reply of `generate_response` (chat_graph.py line 196):
the f-string with the error text truncated to 100 characters. -/
def apology_message (e : String) : String :=
  "I\x27m having trouble responding right now. Let me try again in a moment. (Error: "
    ++ str_take e 100 ++ ")"

/-- `generate_response` (chat_graph.py lines 160-213).  The single
completion call is the `svc` argument; `.error` models the `except`
branch (apology text, zero tokens), `.ok` the normal branch. -/
def generate_response (model_name : String) (st : ChatState)
    (svc : Except String CompletionResult) : ChatState :=
  let out : String × Nat :=
    match svc with
    | Except.ok r => (r.content, r.usage.getD 0)
    | Except.error e => (apology_message e, 0)
  { st with
    ai_response := out.1
    response_metadata :=
      { model := model_name
        tokens_used := out.2
        emotion_detected := st.detected_emotion
        life_event_detected := st.detected_life_event
        is_new_project := st.is_new_project
        is_new_chat := st.is_new_chat
        entities_referenced := st.relevant_entity_names.getD [] } }

/-- `save_messages` (chat_graph.py lines 216-249): create the USER row,
create the AI row, then `Chapter.objects.filter(id=...).update(
message_count=F(message_count) + 2)`. -/
def save_messages (st : ChatState) (db : ChatDb) : ChatState × ChatDb :=
  let user_msg : MessageRec :=
    { id := db.next_id, chapter_id := st.chapter_id, sender := "USER",
      content := st.user_message,
      meta := MessageMeta.user st.detected_emotion st.detected_life_event
        st.message_analysis }
  let ai_msg : MessageRec :=
    { id := db.next_id + 1, chapter_id := st.chapter_id, sender := "AI",
      content := st.ai_response, meta := MessageMeta.ai st.response_metadata }
  ({ st with user_message_id := some user_msg.id, ai_message_id := some ai_msg.id },
   { messages := db.messages ++ [user_msg, ai_msg]
     chapters := db.chapters.map (fun ch =>
       if ch.id == st.chapter_id then
         { ch with message_count := ch.message_count + 2 }
       else ch)
     next_id := db.next_id + 2 })

end ChatGraph

namespace KnowledgeGraph

/-- JSON values, as produced by `json.loads`. -/
inductive Json where
  | null
  | bool (b : Bool)
  | num (q : ℚ)
  | str (s : String)
  | arr (items : List Json)
  | obj (fields : List (String × Json))

/-- `extract_entities` (knowledge_graph.py lines 92-129).  `svc` combines
the completion call and `json.loads` after the markdown-fence stripping:
`.error` is the generic `except Exception` branch, `.ok none` is
`json.JSONDecodeError`, `.ok (some j)` a parsed value.  A parsed value
that is not a list is replaced by `[]` (the `isinstance` check). -/
def extract_entities (svc : Except String (Option Json)) : List Json :=
  match svc with
  | Except.error _ => []
  | Except.ok none => []
  | Except.ok (some (Json.arr items)) => items
  | Except.ok (some _) => []

/-- Python `entity_data.get(k)` on a parsed JSON dict. -/
def dict_get : Json → String → Option Json
  | Json.obj fields, k => (fields.find? (fun p => p.1 == k)).map (fun p => p.2)
  | _, _ => none

/-- Python `entity_data.get(k, d)` read as a string.  A present key whose
value is `null` or not a string is coerced to the default (Python would
feed such values onward or raise; no claim exercises that path). -/
def json_str_get (item : Json) (k d : String) : String :=
  match dict_get item k with
  | some (Json.str s) => s
  | _ => d

/-- The `sentiment_map` dict of `resolve_and_save_entities` (line 206),
with `.get(sentiment, 0.0)`. -/
def sentiment_map (s : String) : ℚ :=
  if s == "positive" then 1/2
  else if s == "neutral" then 0
  else if s == "negative" then -(1/2)
  else if s == "hopeful" then 3/10
  else if s == "motivated" then 2/5
  else 0

/-- Result of `resolve_and_save_entities`: both stores plus the
`entities_saved` / `entities_created` counters. -/
structure SaveOutcome where
  store : EntityStore
  mentions : MentionStore
  entities_saved : Nat
  entities_created : Nat
  deriving Repr, DecidableEq

/-- `resolve_and_save_entities` (knowledge_graph.py lines 180-247): per
extracted item, skip blank names, resolve through the Entity Resolver,
and record an EntityMention when the item carries a nonempty fact.
`none` for the chapter or message models the `DoesNotExist` exceptions
(caught: nothing saved, counters zero).  Created entities take ids
`base_id + k`, standing for fresh UUIDs. -/
def resolve_and_save_entities (fuzz : String → String → Nat) (uid : String)
    (chapter? : Option Chapter) (message_id? : Option Nat)
    (store0 : EntityStore) (mentions0 : MentionStore) (now base_id : Nat)
    (extracted : List Json) : SaveOutcome :=
  match chapter?, message_id? with
  | some chapter, some message_id =>
    extracted.foldl
      (fun acc item =>
        let name := str_trim (json_str_get item "name" "")
        if name == "" then acc
        else
          let entity_type := json_str_get item "type" "TOPIC"
          let fact := json_str_get item "fact" ""
          let relationship := json_str_get item "relationship" ""
          let sentiment_score := sentiment_map (json_str_get item "sentiment" "neutral")
          let r := EntityResolver.resolve fuzz acc.store uid name entity_type
            fact relationship sentiment_score now (base_id + acc.entities_created)
          let acc := { acc with
            store := r.store
            entities_created := acc.entities_created + (if r.created then 1 else 0) }
          if fact != "" then
            { acc with
              mentions := acc.mentions ++
                [⟨r.entity.id, message_id, chapter.id, fact, 9/10, sentiment_score⟩]
              entities_saved := acc.entities_saved + 1 }
          else acc)
      ⟨store0, mentions0, 0, 0⟩
  | _, _ => ⟨store0, mentions0, 0, 0⟩

end KnowledgeGraph

namespace FriendProfiler

/-- One entry of the `mood_history` ring buffer (friend_profiler.py lines
128-135); fields are the dict keys from/to/timestamp. -/
structure MoodEntry where
  from_mood : String
  to_mood : String
  timestamp : String
  deriving Repr, DecidableEq

/-- The `positive_moods` set of `_calculate_mood_trend`. -/
def positive_moods : List String := ["excited", "happy", "hopeful", "grateful", "proud"]

/-- The `negative_moods` set of `_calculate_mood_trend`. -/
def negative_moods : List String := ["stressed", "sad", "frustrated", "anxious", "tired"]

/-- `FriendProfiler._calculate_mood_trend` (friend_profiler.py lines
163-179): fewer than 3 entries is always stable; otherwise compare
positive against negative counts over the last 5 entries. -/
def calculate_mood_trend (mood_history : List MoodEntry) : String :=
  if mood_history.length < 3 then "stable"
  else
    let recent := mood_history.drop (mood_history.length - 5)
    let positive_count := (recent.filter (fun m => positive_moods.contains m.to_mood)).length
    let negative_count := (recent.filter (fun m => negative_moods.contains m.to_mood)).length
    if negative_count + 1 < positive_count then "improving"
    else if positive_count + 1 < negative_count then "declining"
    else "stable"

/-- The `relationship_metrics` JSON dict; `none` is an absent key, read
through the `.get` defaults of the source. -/
structure RelationshipMetrics where
  total_messages : Option Nat
  trust_level : Option ℚ
  emotional_moments_shared : Option Nat
  milestones_celebrated : Option Nat
  conversation_depth : Option String
  achieved_milestones : Option (List String)
  deriving Repr, DecidableEq

/-- One milestone threshold of `_check_milestones` (an absent key means
the requirement is not checked). -/
structure MilestoneReq where
  messages : Option Nat
  trust_level : Option ℚ
  emotional_moments : Option Nat
  deriving Repr, DecidableEq

/-- The `milestones` dict of `_check_milestones` (friend_profiler.py lines
303-309), in insertion order. -/
def milestone_defs : List (String × MilestoneReq) :=
  [("getting_to_know_you", ⟨some 20, none, none⟩),
   ("regular_conversations", ⟨some 100, none, none⟩),
   ("trusted_friend", ⟨none, some (3/5), some 5⟩),
   ("deep_connection", ⟨none, some (4/5), some 15⟩),
   ("life_partner", ⟨some 1000, some (19/20), none⟩)]

/-- The requirement check of `_check_milestones` (lines 319-325): each
present key must be met. -/
def meets_requirements (total_messages : Nat) (trust_level : ℚ)
    (emotional_moments : Nat) (req : MilestoneReq) : Bool :=
  !(req.messages.any (fun m => total_messages < m))
    && !(req.trust_level.any (fun t => trust_level < t))
    && !(req.emotional_moments.any (fun k => emotional_moments < k))

/-- `metrics.get(achieved_milestones, [first_steps])`. -/
def achieved_of (metrics : RelationshipMetrics) : List String :=
  metrics.achieved_milestones.getD ["first_steps"]

/-- One iteration of the milestone loop (friend_profiler.py lines
315-329): `continue` on already-achieved names, otherwise add the name to
both the achieved set and the new-milestone list when its thresholds are
met.  The accumulator is (achieved set, new_milestones). -/
def milestone_step (total_messages : Nat) (trust_level : ℚ)
    (emotional_moments : Nat) (acc : List String × List String)
    (md : String × MilestoneReq) : List String × List String :=
  if acc.1.contains md.1 then acc
  else if meets_requirements total_messages trust_level emotional_moments md.2 then
    (acc.1 ++ [md.1], acc.2 ++ [md.1])
  else acc

/-- `FriendProfiler._check_milestones` (friend_profiler.py lines 296-335):
walk the milestone table, adding each unachieved milestone whose
thresholds are met; write the enlarged set back only when something new
was added.  The Python `set` is modelled by a list with membership
semantics (the `contains` guard prevents duplicate appends). -/
def check_milestones_result (metrics : RelationshipMetrics) :
    List String × List String :=
  milestone_defs.foldl
    (milestone_step (metrics.total_messages.getD 0) (metrics.trust_level.getD (3/10))
      (metrics.emotional_moments_shared.getD 0))
    (achieved_of metrics, [])

/-- Continuation of `_check_milestones`: persist the enlarged set only when
`new_milestones` is nonempty (lines 331-335). -/
def check_milestones (metrics : RelationshipMetrics) :
    RelationshipMetrics × List String :=
  if (check_milestones_result metrics).2.isEmpty then
    (metrics, (check_milestones_result metrics).2)
  else
    ({ metrics with achieved_milestones := some (check_milestones_result metrics).1 },
     (check_milestones_result metrics).2)

/-- The `emotional_words` list of `_update_relationship_metrics`. -/
def emotional_words : List String :=
  ["feel", "feeling", "scared", "worried", "love", "hate", "afraid", "hope"]

/-- `FriendProfiler._update_relationship_metrics` (friend_profiler.py
lines 266-294): +2 messages, trust bump of 0.02 (capped at 1.0) on an
emotional-disclosure keyword in the user part, and the depth bucket. -/
def update_relationship_metrics (exchange : String)
    (metrics : RelationshipMetrics) : RelationshipMetrics :=
  let metrics := { metrics with
    total_messages := some (metrics.total_messages.getD 0 + 2) }
  let user_part := str_lower (str_before exchange "AI:")
  let metrics :=
    if emotional_words.any (fun w => str_contains_sub user_part w) then
      { metrics with
        emotional_moments_shared := some (metrics.emotional_moments_shared.getD 0 + 1)
        trust_level := some (min 1 (metrics.trust_level.getD (3/10) + 1/50)) }
    else metrics
  let depth := if 200 < str_len user_part then "deep"
    else if 50 < str_len user_part then "moderate" else "surface"
  { metrics with conversation_depth := some depth }

/-- The `milestones_celebrated` bump of `_check_life_events` (lines
203-206), the only way that step touches `relationship_metrics`.
`life_event` is the output of `detect_life_event`. -/
def bump_milestones_celebrated (life_event : Option String)
    (metrics : RelationshipMetrics) : RelationshipMetrics :=
  if life_event == some "achievement" then
    { metrics with milestones_celebrated := some (metrics.milestones_celebrated.getD 0 + 1) }
  else metrics

/-- The `relationship_metrics` slice of `FriendProfiler.analyze_and_update`
(friend_profiler.py lines 66-107): of its five steps, only
`_check_life_events` (step 2), `_update_relationship_metrics` (step 4)
and `_check_milestones` (step 5) touch the metrics dict, in that order.
`life_event` stands for the `detect_life_event` heuristic of
emotion_detector.py, which reads only the exchange text. -/
def analyze_and_update_metrics (exchange : String) (life_event : Option String)
    (metrics : RelationshipMetrics) : RelationshipMetrics × List String :=
  check_milestones
    (update_relationship_metrics exchange (bump_milestones_celebrated life_event metrics))

/-- A sequence of profile updates, one `analyze_and_update` per exchange. -/
def run_profile_updates (steps : List (String × Option String))
    (metrics : RelationshipMetrics) : RelationshipMetrics :=
  steps.foldl (fun m s => (analyze_and_update_metrics s.1 s.2 m).1) metrics

end FriendProfiler

/-!  Concrete sample inputs used by counterexamples and witnesses. -/

/-- A similarity oracle returning a fixed score: one possible behaviour of
the external `fuzz.ratio` collaborator on the pairs a scenario exercises. -/
def fuzz_const (n : Nat) : String → String → Nat := fun _ _ => n

/-- A stored PERSON entity "Jane" with its name as sole alias (whole-number
scores, so that kernel evaluation of entity comparisons stays cheap). -/
def jane_entity : Entity :=
  { id := 1, user_id := "u", name := "Jane", name_normalized := "jane",
    entity_type := "PERSON", aliases := ["Jane"], summary := "",
    relationship_to_user := "", sentiment_score := 0,
    importance_score := 0, mention_count := 1, last_mentioned_at := 0 }

/-- A stored PERSON entity "Janet". -/
def janet_entity : Entity :=
  { id := 2, user_id := "u", name := "Janet", name_normalized := "janet",
    entity_type := "PERSON", aliases := ["Janet"], summary := "Works at Acme",
    relationship_to_user := "friend", sentiment_score := 0,
    importance_score := 0, mention_count := 1, last_mentioned_at := 0 }

/-- A chapter that has not exchanged any message yet. -/
def chapter_zero : Chapter :=
  { id := "ch1", library_id := "lib1", title := "First", summary_text := "",
    message_count := 0 }

/-- A mood history of exactly two entries, both ending on positive moods. -/
def two_positive_history : List FriendProfiler.MoodEntry :=
  [⟨"neutral", "happy", "t1"⟩, ⟨"happy", "excited", "t2"⟩]

/-- A freshly created `relationship_metrics` dict with every key absent. -/
def empty_metrics : FriendProfiler.RelationshipMetrics :=
  ⟨none, none, none, none, none, none⟩

namespace EntityResolver

/-- `N` sequential `resolve` calls for the same mention against an initially
empty entity table, threading the store: the first call creates the entity,
every later call matches it. -/
def resolve_repeat (fuzz : String → String → Nat)
    (uid entity_name etype fact relationship : String) (sentiment : ℚ)
    (now fresh_id : Nat) : Nat → EntityStore
  | 0 => []
  | n + 1 =>
    (resolve fuzz
      (resolve_repeat fuzz uid entity_name etype fact relationship sentiment now fresh_id n)
      uid entity_name etype fact relationship sentiment now fresh_id).store

end EntityResolver

/-! ## Theorems -/

/-- C4 counterexample: a chapter with `message_count = 0` satisfies
`message_count % 20 == 0`, yet the compression-threshold check schedules
nothing, because the code also requires `message_count > 0`. -/
theorem check_memory_compression_at_zero :
    chapter_zero.message_count % 20 = 0
      ∧ Tasks.check_memory_compression (some chapter_zero) = false := by
  decide

/-- C4 (amended): compression is scheduled iff the chapter exists and its
`message_count` is a positive multiple of 20. -/
theorem check_memory_compression_iff (ch : Chapter) :
    Tasks.check_memory_compression (some ch) = true
      ↔ 0 < ch.message_count ∧ ch.message_count % 20 = 0 := by
  simp [Tasks.check_memory_compression]

/-- C9 counterexample: a two-entry history whose entries are both positive
(positives exceed negatives by 2 > 1) is classified "stable", not
"improving", because histories shorter than 3 entries short-circuit. -/
theorem mood_trend_two_positive_stable :
    (two_positive_history.filter
        (fun m => FriendProfiler.positive_moods.contains m.to_mood)).length = 2
      ∧ (two_positive_history.filter
          (fun m => FriendProfiler.negative_moods.contains m.to_mood)).length = 0
      ∧ FriendProfiler.calculate_mood_trend two_positive_history = "stable" := by
  decide

/-- C9 (amended): for histories of at least 3 entries the trend is decided
by the positive/negative counts over the last 5 entries with a margin of
more than 1; any shorter history is "stable". -/
theorem calculate_mood_trend_spec (h : List FriendProfiler.MoodEntry) :
    (FriendProfiler.calculate_mood_trend h = "improving"
        ↔ 3 ≤ h.length
          ∧ (h.drop (h.length - 5)).countP
              (fun m => FriendProfiler.negative_moods.contains m.to_mood) + 1
            < (h.drop (h.length - 5)).countP
              (fun m => FriendProfiler.positive_moods.contains m.to_mood))
    ∧ (FriendProfiler.calculate_mood_trend h = "declining"
        ↔ 3 ≤ h.length
          ∧ (h.drop (h.length - 5)).countP
              (fun m => FriendProfiler.positive_moods.contains m.to_mood) + 1
            < (h.drop (h.length - 5)).countP
              (fun m => FriendProfiler.negative_moods.contains m.to_mood))
    ∧ (FriendProfiler.calculate_mood_trend h = "stable"
        ↔ h.length < 3
          ∨ ((h.drop (h.length - 5)).countP
                (fun m => FriendProfiler.positive_moods.contains m.to_mood)
              ≤ (h.drop (h.length - 5)).countP
                (fun m => FriendProfiler.negative_moods.contains m.to_mood) + 1
            ∧ (h.drop (h.length - 5)).countP
                (fun m => FriendProfiler.negative_moods.contains m.to_mood)
              ≤ (h.drop (h.length - 5)).countP
                (fun m => FriendProfiler.positive_moods.contains m.to_mood) + 1)) := by
  unfold FriendProfiler.calculate_mood_trend
  simp only [List.countP_eq_length_filter]
  split_ifs with h1 h2 h3 <;> (simp_all; try omega)

/-- C7: on any failure of the single completion call, `generate_response`
returns the apology text as the user-visible reply, records zero token
usage, and still produces a complete state (the pipeline continues). -/
theorem generate_response_degrades (model_name : String)
    (st : ChatGraph.ChatState) (e : String) :
    (ChatGraph.generate_response model_name st (Except.error e)).ai_response
        = ChatGraph.apology_message e
      ∧ (ChatGraph.generate_response model_name st
          (Except.error e)).response_metadata.tokens_used = 0
      ∧ "I\x27m having trouble responding right now.".data
          <+: (ChatGraph.generate_response model_name st
            (Except.error e)).ai_response.data := by
  refine ⟨rfl, rfl, ?_⟩
  show "I\x27m having trouble responding right now.".data
    <+: (ChatGraph.apology_message e).data
  unfold ChatGraph.apology_message
  rw [String.data_append, String.data_append, List.append_assoc]
  have h1 : "I\x27m having trouble responding right now.".data
      <+: "I\x27m having trouble responding right now. Let me try again in a moment. (Error: ".data := by
    decide
  exact h1.trans (List.prefix_append _ _)

/-- C10: `save_messages` appends exactly the USER row then the AI row and
bumps the chapter counter by exactly 2; after a failed generation the AI
row carries the apology text with zero recorded tokens, so a degraded turn
is stored with the same shape as a successful one. -/
theorem save_messages_two_rows (model_name : String)
    (st : ChatGraph.ChatState) (db : ChatGraph.ChatDb) (e : String) :
    ((ChatGraph.save_messages
        (ChatGraph.generate_response model_name st (Except.error e)) db).2.messages
      = db.messages ++
        [⟨db.next_id, st.chapter_id, "USER", st.user_message,
          ChatGraph.MessageMeta.user st.detected_emotion st.detected_life_event
            st.message_analysis⟩,
         ⟨db.next_id + 1, st.chapter_id, "AI", ChatGraph.apology_message e,
          ChatGraph.MessageMeta.ai
            ⟨model_name, 0, st.detected_emotion, st.detected_life_event,
             st.is_new_project, st.is_new_chat,
             st.relevant_entity_names.getD []⟩⟩])
    ∧ ((ChatGraph.save_messages
        (ChatGraph.generate_response model_name st (Except.error e)) db).2.chapters
      = db.chapters.map (fun ch =>
          if ch.id == st.chapter_id then
            { ch with message_count := ch.message_count + 2 }
          else ch))
    ∧ (∀ (st' : ChatGraph.ChatState) (db' : ChatGraph.ChatDb),
        (ChatGraph.save_messages st' db').2.messages.length
          = db'.messages.length + 2) := by
  refine ⟨rfl, rfl, fun st' db' => ?_⟩
  simp [ChatGraph.save_messages]

/-- C6: whenever the extraction response is not a parsed JSON array
(completion failure, malformed JSON, or a non-array value), the extracted
list degrades to `[]` and `resolve_and_save_entities` saves nothing: both
stores are unchanged and both counters are zero; no exception escapes
(both stages are total functions). -/
theorem knowledge_extraction_malformed_degrades
    (svc : Except String (Option KnowledgeGraph.Json))
    (h : ∀ items, svc ≠ Except.ok (some (KnowledgeGraph.Json.arr items)))
    (fuzz : String → String → Nat) (uid : String) (chapter? : Option Chapter)
    (message_id? : Option Nat) (store0 : EntityStore) (mentions0 : MentionStore)
    (now base_id : Nat) :
    KnowledgeGraph.extract_entities svc = []
      ∧ KnowledgeGraph.resolve_and_save_entities fuzz uid chapter? message_id?
          store0 mentions0 now base_id (KnowledgeGraph.extract_entities svc)
        = ⟨store0, mentions0, 0, 0⟩ := by
  have hempty : KnowledgeGraph.extract_entities svc = [] := by
    match svc with
    | Except.error _ => rfl
    | Except.ok none => rfl
    | Except.ok (some (KnowledgeGraph.Json.arr items)) => exact absurd rfl (h items)
    | Except.ok (some KnowledgeGraph.Json.null) => rfl
    | Except.ok (some (KnowledgeGraph.Json.bool _)) => rfl
    | Except.ok (some (KnowledgeGraph.Json.num _)) => rfl
    | Except.ok (some (KnowledgeGraph.Json.str _)) => rfl
    | Except.ok (some (KnowledgeGraph.Json.obj _)) => rfl
  refine ⟨hempty, ?_⟩
  rw [hempty]
  cases chapter? <;> cases message_id? <;> rfl

/-- C6 witness: a reply whose body parses to a JSON string (not an array)
saves nothing. -/
theorem knowledge_extraction_malformed_degrades_witness :
    KnowledgeGraph.extract_entities
        (Except.ok (some (KnowledgeGraph.Json.str "oops"))) = []
      ∧ KnowledgeGraph.resolve_and_save_entities (fuzz_const 0) "u" none none
          [] [] 0 0 (KnowledgeGraph.extract_entities
            (Except.ok (some (KnowledgeGraph.Json.str "oops"))))
        = ⟨[], [], 0, 0⟩ :=
  knowledge_extraction_malformed_degrades
    (Except.ok (some (KnowledgeGraph.Json.str "oops")))
    (fun items hh => by
      have h1 := Except.ok.inj hh
      have h2 := Option.some.inj h1
      cases h2)
    (fuzz_const 0) "u" none none [] [] 0 0

/-- C2 counterexample: "Janett" fuzzy-matches the stored entity "Janet" at
a similarity above 85 (the resolver's own fuzzy matcher finds it), and is
not in a substring relation with the normalized name — yet the context
loader's lookup attaches nothing, because it only runs an `icontains`
substring query. -/
theorem context_lookup_no_fuzzy :
    (EntityResolver.fuzzy_match_name (fuzz_const 90) [janet_entity] "u"
        (EntityResolver.normalize_name "Janett") "PERSON").map Entity.id
        = some janet_entity.id
      ∧ str_contains_sub (str_lower janet_entity.name_normalized)
          (str_lower "Janett") = false
      ∧ ContextLoader.entity_search [janet_entity] [] "u" ["Janett"] = [] := by
  decide

/-- C2 (amended): for each candidate name the context loader attaches an
entity iff some entity of the user has a normalized name containing the
lowercased candidate as a substring; on a hit, the first such entity in
table order is attached with its name, type, relationship, summary, and
up to 5 most recent mention facts.  No fuzzy threshold is involved. -/
theorem context_lookup_is_substring (store : EntityStore)
    (mentions : MentionStore) (uid name : String) :
    (ContextLoader.entity_search store mentions uid [name] ≠ []
      ↔ ∃ e ∈ store, e.user_id = uid
          ∧ str_contains_sub (str_lower e.name_normalized) (str_lower name) = true)
    ∧ (∀ e, ContextLoader.entity_icontains_match store uid name = some e →
        ContextLoader.entity_search store mentions uid [name]
          = [⟨e.name, e.entity_type, e.relationship_to_user, e.summary,
              ContextLoader.recent_facts mentions e.id⟩]) := by
  constructor
  · rcases hm : ContextLoader.entity_icontains_match store uid name with _ | e
    · simp only [ContextLoader.entity_search, List.foldl_cons, List.foldl_nil, hm]
      unfold ContextLoader.entity_icontains_match at hm
      rw [List.find?_eq_none] at hm
      simp only [ne_eq, not_true_eq_false, false_iff, not_exists]
      intro e hcon
      refine hm e hcon.1 ?_
      rw [Bool.and_eq_true]
      exact ⟨beq_iff_eq.mpr hcon.2.1, hcon.2.2⟩
    · have hm' := hm
      unfold ContextLoader.entity_icontains_match at hm'
      have hmem := List.mem_of_find?_eq_some hm'
      have hpred := List.find?_some hm'
      rw [Bool.and_eq_true] at hpred
      simp only [ContextLoader.entity_search, List.foldl_cons, List.foldl_nil, hm]
      constructor
      · intro _
        exact ⟨e, hmem, beq_iff_eq.mp hpred.1, hpred.2⟩
      · intro _
        simp
  · intro e hm
    simp [ContextLoader.entity_search, hm]

/-- C2 witness: "Jan" is a substring of the stored normalized name "janet",
so the lookup attaches the entity. -/
theorem context_lookup_is_substring_witness :
    ContextLoader.entity_search [janet_entity] [] "u" ["Jan"] ≠ [] :=
  (context_lookup_is_substring [janet_entity] [] "u" "Jan").1.mpr
    ⟨janet_entity, List.mem_singleton.mpr rfl, by decide, by decide⟩

/-- C1 counterexample: a mention whose similarity to the stored name is
exactly 85 (and which has no exact match) does NOT resolve to that entity:
the code creates a new one, because both fuzzy matchers require a score
strictly above `SIMILARITY_THRESHOLD = 85`. -/
theorem resolver_threshold_strict_at_85 :
    EntityResolver.SIMILARITY_THRESHOLD
        ≤ fuzz_const 85 (EntityResolver.normalize_name "Janet")
            jane_entity.name_normalized
      ∧ EntityResolver.normalize_name "Janet" ≠ jane_entity.name_normalized
      ∧ (EntityResolver.resolve (fuzz_const 85) [jane_entity] "u" "Janet"
          "PERSON" "" "" 0 1 2).created = true := by
  decide

/-- C3 counterexample: resolving "my Jane" hits the exact-match branch of
the stored entity (normalized "jane"); "my Jane" has no case-insensitively
equal alias, yet the alias list is left unchanged — the exact-match branch
never calls `_add_alias_if_new`. -/
theorem exact_match_does_not_add_alias :
    ((jane_entity.aliases.map str_lower).contains (str_lower "my Jane")) = false
      ∧ (EntityResolver.resolve (fuzz_const 0) [jane_entity] "u" "my Jane"
          "PERSON" "" "" 0 1 2).created = false
      ∧ (EntityResolver.resolve (fuzz_const 0) [jane_entity] "u" "my Jane"
          "PERSON" "" "" 0 1 2).entity.aliases = ["Jane"] := by
  decide

/-! ### Entity-resolver helper lemmas -/

namespace EntityResolver

theorem resolve_eq_exact (fuzz : String → String → Nat) (store : EntityStore)
    (uid entity_name etype fact relationship : String) (sentiment : ℚ)
    (now fresh_id : Nat) (e : Entity)
    (hex : exact_match store uid (normalize_name entity_name) etype = some e) :
    resolve fuzz store uid entity_name etype fact relationship sentiment now fresh_id
      = ⟨update_existing e fact relationship sentiment now, false,
         save_entity store (update_existing e fact relationship sentiment now)⟩ := by
  simp only [resolve, hex]

theorem resolve_eq_fuzzy_name (fuzz : String → String → Nat) (store : EntityStore)
    (uid entity_name etype fact relationship : String) (sentiment : ℚ)
    (now fresh_id : Nat) (e : Entity)
    (hex : exact_match store uid (normalize_name entity_name) etype = none)
    (hfn : fuzzy_match_name fuzz store uid (normalize_name entity_name) etype = some e) :
    resolve fuzz store uid entity_name etype fact relationship sentiment now fresh_id
      = ⟨update_existing (add_alias_if_new e entity_name) fact relationship sentiment now,
         false,
         save_entity store
           (update_existing (add_alias_if_new e entity_name) fact relationship sentiment now)⟩ := by
  simp only [resolve, hex, hfn]

theorem resolve_eq_fuzzy_alias (fuzz : String → String → Nat) (store : EntityStore)
    (uid entity_name etype fact relationship : String) (sentiment : ℚ)
    (now fresh_id : Nat) (e : Entity)
    (hex : exact_match store uid (normalize_name entity_name) etype = none)
    (hfn : fuzzy_match_name fuzz store uid (normalize_name entity_name) etype = none)
    (hfa : fuzzy_match_aliases fuzz store uid (normalize_name entity_name) etype = some e) :
    resolve fuzz store uid entity_name etype fact relationship sentiment now fresh_id
      = ⟨update_existing (add_alias_if_new e entity_name) fact relationship sentiment now,
         false,
         save_entity store
           (update_existing (add_alias_if_new e entity_name) fact relationship sentiment now)⟩ := by
  simp only [resolve, hex, hfn, hfa]

theorem resolve_eq_create (fuzz : String → String → Nat) (store : EntityStore)
    (uid entity_name etype fact relationship : String) (sentiment : ℚ)
    (now fresh_id : Nat)
    (hex : exact_match store uid (normalize_name entity_name) etype = none)
    (hfn : fuzzy_match_name fuzz store uid (normalize_name entity_name) etype = none)
    (hfa : fuzzy_match_aliases fuzz store uid (normalize_name entity_name) etype = none) :
    resolve fuzz store uid entity_name etype fact relationship sentiment now fresh_id
      = ⟨create_new fresh_id uid entity_name (normalize_name entity_name) etype fact
           relationship sentiment now,
         true,
         store ++ [create_new fresh_id uid entity_name (normalize_name entity_name) etype
           fact relationship sentiment now]⟩ := by
  simp only [resolve, hex, hfn, hfa]

theorem update_existing_core (e : Entity) (fact relationship : String)
    (sentiment : ℚ) (now : Nat) :
    (update_existing e fact relationship sentiment now).id = e.id
      ∧ (update_existing e fact relationship sentiment now).user_id = e.user_id
      ∧ (update_existing e fact relationship sentiment now).name_normalized = e.name_normalized
      ∧ (update_existing e fact relationship sentiment now).entity_type = e.entity_type
      ∧ (update_existing e fact relationship sentiment now).aliases = e.aliases
      ∧ (update_existing e fact relationship sentiment now).mention_count = e.mention_count + 1
      ∧ (update_existing e fact relationship sentiment now).importance_score
          = min 1 (e.importance_score + 1/20) := by
  simp only [update_existing, apply_relationship, apply_sentiment, apply_fact]
  split_ifs <;> simp

theorem add_alias_if_new_core (e : Entity) (n : String) :
    (add_alias_if_new e n).id = e.id
      ∧ (add_alias_if_new e n).user_id = e.user_id
      ∧ (add_alias_if_new e n).name_normalized = e.name_normalized
      ∧ (add_alias_if_new e n).entity_type = e.entity_type
      ∧ (add_alias_if_new e n).mention_count = e.mention_count
      ∧ (add_alias_if_new e n).importance_score = e.importance_score := by
  simp only [add_alias_if_new]
  split_ifs <;> simp

theorem add_alias_if_new_aliases (e : Entity) (n : String) :
    (add_alias_if_new e n).aliases =
      if (e.aliases.map str_lower).contains (str_lower n) then e.aliases
      else e.aliases ++ [n] := by
  simp only [add_alias_if_new]
  rcases hB : (e.aliases.map str_lower).contains (str_lower n) with _ | _
  · rcases hA : e.aliases.contains n with _ | _
    · simp [hA, hB]
    · exfalso
      have hmem : n ∈ e.aliases := by
        simpa using hA
      have hlm : str_lower n ∈ e.aliases.map str_lower := List.mem_map_of_mem _ hmem
      have hc : ((e.aliases.map str_lower).contains (str_lower n)) = true :=
        List.contains_iff_exists_mem_beq.mpr ⟨str_lower n, hlm, by simp⟩
      rw [hB] at hc
      cases hc
  · simp [hB]

theorem exact_match_mem (store : EntityStore) (uid normalized etype : String)
    (e : Entity) (h : exact_match store uid normalized etype = some e) :
    e ∈ store := by
  unfold exact_match at h
  exact List.mem_of_find?_eq_some h

theorem fuzzy_fold_ne_none (fuzz : String → String → Nat) (normalized : String)
    (l : List Entity) (e : Entity) (s : Nat) :
    ((l.foldl (fuzzy_name_step fuzz normalized) (some e, s)).1) ≠ none := by
  induction l generalizing e s with
  | nil => simp
  | cons x xs ih =>
    simp only [List.foldl_cons, fuzzy_name_step]
    split
    · exact ih _ _
    · exact ih _ _

theorem fuzzy_fold_none_le (fuzz : String → String → Nat) (normalized : String)
    (l : List Entity) :
    (l.foldl (fuzzy_name_step fuzz normalized) (none, 0)).1 = none →
    ∀ e ∈ l, fuzz normalized e.name_normalized ≤ SIMILARITY_THRESHOLD := by
  induction l with
  | nil =>
    intro _ e he
    cases he
  | cons x xs ih =>
    intro hres e he
    simp only [List.foldl_cons] at hres
    by_cases hx : SIMILARITY_THRESHOLD < fuzz normalized x.name_normalized
    · have h0 : 0 < fuzz normalized x.name_normalized :=
        lt_of_le_of_lt (Nat.zero_le _) hx
      have hstep : fuzzy_name_step fuzz normalized (none, 0) x
          = (some x, fuzz normalized x.name_normalized) := by
        simp [fuzzy_name_step, hx, h0]
      rw [hstep] at hres
      exact absurd hres (fuzzy_fold_ne_none fuzz normalized xs x _)
    · have hstep : fuzzy_name_step fuzz normalized (none, 0) x = (none, 0) := by
        simp [fuzzy_name_step, hx]
      rw [hstep] at hres
      rcases List.mem_cons.mp he with rfl | he'
      · exact Nat.le_of_not_lt hx
      · exact ih hres e he'

theorem fuzzy_fold_mem (fuzz : String → String → Nat) (normalized : String)
    (l : List Entity) (acc : Option Entity × Nat) (x : Entity)
    (h : (l.foldl (fuzzy_name_step fuzz normalized) acc).1 = some x) :
    acc.1 = some x ∨ x ∈ l := by
  induction l generalizing acc with
  | nil => exact Or.inl h
  | cons y ys ih =>
    simp only [List.foldl_cons] at h
    rcases ih _ h with hacc | hmem
    · simp only [fuzzy_name_step] at hacc
      split at hacc
      · simp only at hacc
        rw [Option.some.inj hacc]
        exact Or.inr (List.mem_cons_self _ _)
      · exact Or.inl hacc
    · exact Or.inr (List.mem_cons_of_mem _ hmem)

theorem fuzzy_match_name_none_le (fuzz : String → String → Nat)
    (store : EntityStore) (uid normalized etype : String)
    (h : fuzzy_match_name fuzz store uid normalized etype = none) :
    ∀ e ∈ store, e.user_id = uid → e.entity_type = etype →
      fuzz normalized e.name_normalized ≤ SIMILARITY_THRESHOLD := by
  intro e he hu ht
  refine fuzzy_fold_none_le fuzz normalized _ h e ?_
  rw [List.mem_filter]
  exact ⟨he, by simp [hu, ht]⟩

theorem fuzzy_match_name_mem (fuzz : String → String → Nat)
    (store : EntityStore) (uid normalized etype : String) (x : Entity)
    (h : fuzzy_match_name fuzz store uid normalized etype = some x) :
    x ∈ store := by
  unfold fuzzy_match_name at h
  rcases fuzzy_fold_mem fuzz normalized _ _ _ h with hacc | hmem
  · cases hacc
  · exact (List.mem_filter.mp hmem).1

theorem fuzzy_match_aliases_mem (fuzz : String → String → Nat)
    (store : EntityStore) (uid normalized etype : String) (x : Entity)
    (h : fuzzy_match_aliases fuzz store uid normalized etype = some x) :
    x ∈ store := by
  unfold fuzzy_match_aliases at h
  exact (List.mem_filter.mp (List.mem_of_find?_eq_some h)).1

end EntityResolver

/-- C1 (amended): for every mention whose similarity to an existing
entity's normalized name or to one of its aliases is STRICTLY greater
than 85, `resolve` returns an existing entity (one already in the store)
with `created = False`; at similarity exactly 85 the fuzzy matchers do
not fire (see the counterexample), since both use `score > 85`. -/
theorem resolver_matches_above_threshold (fuzz : String → String → Nat)
    (store : EntityStore) (uid entity_name etype fact relationship : String)
    (sentiment : ℚ) (now fresh_id : Nat) (e : Entity)
    (he : e ∈ store) (hu : e.user_id = uid) (ht : e.entity_type = etype)
    (hsim : EntityResolver.SIMILARITY_THRESHOLD
        < fuzz (EntityResolver.normalize_name entity_name) e.name_normalized
      ∨ ∃ a ∈ e.aliases, EntityResolver.SIMILARITY_THRESHOLD
          < fuzz (EntityResolver.normalize_name entity_name) (str_lower a)) :
    (EntityResolver.resolve fuzz store uid entity_name etype fact relationship
        sentiment now fresh_id).created = false
    ∧ ∃ e0 ∈ store,
        (EntityResolver.resolve fuzz store uid entity_name etype fact relationship
          sentiment now fresh_id).entity.id = e0.id := by
  rcases hex : EntityResolver.exact_match store uid
      (EntityResolver.normalize_name entity_name) etype with _ | e1
  · rcases hfn : EntityResolver.fuzzy_match_name fuzz store uid
        (EntityResolver.normalize_name entity_name) etype with _ | e1
    · rcases hfa : EntityResolver.fuzzy_match_aliases fuzz store uid
          (EntityResolver.normalize_name entity_name) etype with _ | e2
      · exfalso
        rcases hsim with hname | ⟨a, ha, hs⟩
        · exact absurd hname
            (not_lt.mpr (EntityResolver.fuzzy_match_name_none_le fuzz store uid
              (EntityResolver.normalize_name entity_name) etype hfn e he hu ht))
        · unfold EntityResolver.fuzzy_match_aliases at hfa
          rw [List.find?_eq_none] at hfa
          refine hfa e ?_ ?_
          · rw [List.mem_filter]
            exact ⟨he, by simp [hu, ht]⟩
          · rw [List.any_eq_true]
            exact ⟨a, ha, by simp [hs]⟩
      · rw [EntityResolver.resolve_eq_fuzzy_alias fuzz store uid entity_name etype
          fact relationship sentiment now fresh_id e2 hex hfn hfa]
        refine ⟨rfl, e2, EntityResolver.fuzzy_match_aliases_mem fuzz store uid
          (EntityResolver.normalize_name entity_name) etype e2 hfa, ?_⟩
        rw [(EntityResolver.update_existing_core _ fact relationship sentiment now).1]
        exact (EntityResolver.add_alias_if_new_core e2 entity_name).1
    · rw [EntityResolver.resolve_eq_fuzzy_name fuzz store uid entity_name etype
        fact relationship sentiment now fresh_id e1 hex hfn]
      refine ⟨rfl, e1, EntityResolver.fuzzy_match_name_mem fuzz store uid
        (EntityResolver.normalize_name entity_name) etype e1 hfn, ?_⟩
      rw [(EntityResolver.update_existing_core _ fact relationship sentiment now).1]
      exact (EntityResolver.add_alias_if_new_core e1 entity_name).1
  · rw [EntityResolver.resolve_eq_exact fuzz store uid entity_name etype
      fact relationship sentiment now fresh_id e1 hex]
    exact ⟨rfl, e1, EntityResolver.exact_match_mem store uid _ etype e1 hex,
      (EntityResolver.update_existing_core e1 fact relationship sentiment now).1⟩

/-- C1 witness: at similarity 90 > 85, the mention "Janet" resolves to the
stored entity instead of creating a new one. -/
theorem resolver_matches_above_threshold_witness :
    (EntityResolver.resolve (fuzz_const 90) [jane_entity] "u" "Janet" "PERSON"
        "" "" 0 3 7).created = false
    ∧ ∃ e0 ∈ [jane_entity],
        (EntityResolver.resolve (fuzz_const 90) [jane_entity] "u" "Janet" "PERSON"
          "" "" 0 3 7).entity.id = e0.id :=
  resolver_matches_above_threshold (fuzz_const 90) [jane_entity] "u" "Janet"
    "PERSON" "" "" 0 3 7 jane_entity (List.mem_singleton.mpr rfl) rfl rfl
    (Or.inl (by decide))

/-- C3 (amended): the raw mention name is appended to the matched entity's
aliases (with case-insensitive dedup) on the two FUZZY branches only; the
exact-match branch leaves the alias list unchanged. -/
theorem alias_appended_on_fuzzy_only (fuzz : String → String → Nat)
    (store : EntityStore) (uid entity_name etype fact relationship : String)
    (sentiment : ℚ) (now fresh_id : Nat) :
    (∀ e, EntityResolver.exact_match store uid
        (EntityResolver.normalize_name entity_name) etype = some e →
      (EntityResolver.resolve fuzz store uid entity_name etype fact relationship
        sentiment now fresh_id).entity.aliases = e.aliases)
    ∧ (∀ e, EntityResolver.exact_match store uid
          (EntityResolver.normalize_name entity_name) etype = none →
        (EntityResolver.fuzzy_match_name fuzz store uid
            (EntityResolver.normalize_name entity_name) etype = some e
          ∨ (EntityResolver.fuzzy_match_name fuzz store uid
              (EntityResolver.normalize_name entity_name) etype = none
            ∧ EntityResolver.fuzzy_match_aliases fuzz store uid
                (EntityResolver.normalize_name entity_name) etype = some e)) →
        (EntityResolver.resolve fuzz store uid entity_name etype fact relationship
          sentiment now fresh_id).entity.aliases
          = if (e.aliases.map str_lower).contains (str_lower entity_name)
            then e.aliases else e.aliases ++ [entity_name]) := by
  constructor
  · intro e hex
    rw [EntityResolver.resolve_eq_exact fuzz store uid entity_name etype
      fact relationship sentiment now fresh_id e hex]
    exact (EntityResolver.update_existing_core e fact relationship sentiment now).2.2.2.2.1
  · intro e hex hcase
    rcases hcase with hfn | ⟨hfn, hfa⟩
    · rw [EntityResolver.resolve_eq_fuzzy_name fuzz store uid entity_name etype
        fact relationship sentiment now fresh_id e hex hfn]
      rw [(EntityResolver.update_existing_core _ fact relationship sentiment now).2.2.2.2.1]
      exact EntityResolver.add_alias_if_new_aliases e entity_name
    · rw [EntityResolver.resolve_eq_fuzzy_alias fuzz store uid entity_name etype
        fact relationship sentiment now fresh_id e hex hfn hfa]
      rw [(EntityResolver.update_existing_core _ fact relationship sentiment now).2.2.2.2.1]
      exact EntityResolver.add_alias_if_new_aliases e entity_name

/-- C3 witness: the fuzzy-name branch appends the raw mention "Janet" to
the aliases of the matched entity. -/
theorem alias_appended_on_fuzzy_only_witness :
    (EntityResolver.resolve (fuzz_const 90) [jane_entity] "u" "Janet" "PERSON"
        "" "" 0 3 7).entity.aliases
      = if (jane_entity.aliases.map str_lower).contains (str_lower "Janet")
        then jane_entity.aliases else jane_entity.aliases ++ ["Janet"] :=
  (alias_appended_on_fuzzy_only (fuzz_const 90) [jane_entity] "u" "Janet"
      "PERSON" "" "" 0 3 7).2 jane_entity (by decide) (Or.inl (by decide))


theorem min_one_add_clip (x d : ℚ) (hd : 0 ≤ d) :
    min 1 (min 1 x + d) = min 1 (x + d) := by
  rcases le_total x 1 with h | h
  · rw [min_eq_right h]
  · rw [min_eq_left h, min_eq_left (by linarith), min_eq_left (by linarith)]

theorem resolve_repeat_spec (fuzz : String → String → Nat)
    (uid entity_name etype fact relationship : String) (sentiment : ℚ)
    (now fresh_id : Nat) (n : Nat) :
    ∃ e : Entity,
      EntityResolver.resolve_repeat fuzz uid entity_name etype fact relationship
          sentiment now fresh_id (n + 1) = [e]
        ∧ e.user_id = uid
        ∧ e.name_normalized = EntityResolver.normalize_name entity_name
        ∧ e.entity_type = etype
        ∧ e.id = fresh_id
        ∧ e.mention_count = n + 1
        ∧ e.importance_score = min 1 (1/2 + n * (1/20 : ℚ)) := by
  induction n with
  | zero =>
    refine ⟨EntityResolver.create_new fresh_id uid entity_name
      (EntityResolver.normalize_name entity_name) etype fact relationship sentiment now,
      ?_, rfl, rfl, rfl, rfl, rfl, ?_⟩
    · show (EntityResolver.resolve fuzz [] uid entity_name etype fact relationship
        sentiment now fresh_id).store = _
      rw [EntityResolver.resolve_eq_create fuzz [] uid entity_name etype fact
        relationship sentiment now fresh_id rfl rfl rfl]
      rfl
    · show (1/2 : ℚ) = min 1 (1/2 + (0 : ℕ) * (1/20 : ℚ))
      rw [Nat.cast_zero, zero_mul, add_zero, min_eq_right (by norm_num : (1/2 : ℚ) ≤ 1)]
  | succ n ih =>
    obtain ⟨e, hstore, hu, hn, ht, hid, hc, himp⟩ := ih
    have hexact : EntityResolver.exact_match [e] uid
        (EntityResolver.normalize_name entity_name) etype = some e :=
      List.find?_cons_of_pos _ (by simp [hu, hn, ht])
    refine ⟨EntityResolver.update_existing e fact relationship sentiment now,
      ?_, ?_, ?_, ?_, ?_, ?_, ?_⟩
    · show (EntityResolver.resolve fuzz
        (EntityResolver.resolve_repeat fuzz uid entity_name etype fact relationship
          sentiment now fresh_id (n + 1))
        uid entity_name etype fact relationship sentiment now fresh_id).store = _
      rw [hstore, EntityResolver.resolve_eq_exact fuzz [e] uid entity_name etype
        fact relationship sentiment now fresh_id e hexact]
      show EntityResolver.save_entity [e] _ = _
      unfold EntityResolver.save_entity
      simp [(EntityResolver.update_existing_core e fact relationship sentiment now).1]
    · rw [(EntityResolver.update_existing_core e fact relationship sentiment now).2.1, hu]
    · rw [(EntityResolver.update_existing_core e fact relationship sentiment now).2.2.1, hn]
    · rw [(EntityResolver.update_existing_core e fact relationship sentiment now).2.2.2.1, ht]
    · rw [(EntityResolver.update_existing_core e fact relationship sentiment now).1, hid]
    · rw [(EntityResolver.update_existing_core e fact relationship sentiment now).2.2.2.2.2.1, hc]
    · rw [(EntityResolver.update_existing_core e fact relationship sentiment now).2.2.2.2.2.2,
        himp, min_one_add_clip _ _ (by norm_num : (0 : ℚ) ≤ 1/20)]
      congr 1
      push_cast
      ring

/-- C5: after N ≥ 1 sequential resolutions of the same mention starting
from an empty entity table (the first call creating the entity, each later
call matching it), the entity's `mention_count` equals N and its
`importance_score` equals min(1.0, 0.5 + 0.05*(N-1)). -/
theorem mention_count_and_importance (fuzz : String → String → Nat)
    (uid entity_name etype fact relationship : String) (sentiment : ℚ)
    (now fresh_id : Nat) (N : Nat) (hN : 1 ≤ N) :
    ∃ e : Entity,
      EntityResolver.resolve_repeat fuzz uid entity_name etype fact relationship
          sentiment now fresh_id N = [e]
        ∧ e.mention_count = N
        ∧ e.importance_score = min 1 (1/2 + ((N : ℚ) - 1) * (1/20)) := by
  obtain ⟨m, rfl⟩ : ∃ m, N = m + 1 := ⟨N - 1, (Nat.succ_pred_eq_of_pos hN).symm⟩
  obtain ⟨e, h1, _, _, _, _, hc, himp⟩ := resolve_repeat_spec fuzz uid entity_name
    etype fact relationship sentiment now fresh_id m
  refine ⟨e, h1, hc, ?_⟩
  rw [himp]
  congr 1
  push_cast
  ring

/-- C5 witness: three resolutions give mention count 3 and importance
min(1, 0.5 + 2*0.05) = 0.6. -/
theorem mention_count_and_importance_witness :
    ∃ e : Entity,
      EntityResolver.resolve_repeat (fuzz_const 0) "u" "Jane" "PERSON"
          "likes hiking" "sister" 0 4 9 3 = [e]
        ∧ e.mention_count = 3
        ∧ e.importance_score = min 1 (1/2 + ((3 : ℚ) - 1) * (1/20)) :=
  mention_count_and_importance (fuzz_const 0) "u" "Jane" "PERSON" "likes hiking"
    "sister" 0 4 9 3 (by decide)

/-! ### Friend-profiler helper lemmas -/

namespace FriendProfiler

theorem milestone_fold_mono (T : Nat) (t : ℚ) (E : Nat)
    (l : List (String × MilestoneReq)) (acc : List String × List String)
    (x : String) (hx : x ∈ acc.1) :
    x ∈ (l.foldl (milestone_step T t E) acc).1 := by
  induction l generalizing acc with
  | nil => exact hx
  | cons md l ih =>
    simp only [List.foldl_cons]
    refine ih _ ?_
    unfold milestone_step
    split_ifs <;> simp [hx]

theorem milestone_fold_provenance (T : Nat) (t : ℚ) (E : Nat)
    (l : List (String × MilestoneReq)) (acc : List String × List String)
    (x : String)
    (h : x ∈ (l.foldl (milestone_step T t E) acc).1) :
    x ∈ acc.1 ∨ ∃ req, (x, req) ∈ l ∧ meets_requirements T t E req = true := by
  induction l generalizing acc with
  | nil => exact Or.inl h
  | cons md l ih =>
    simp only [List.foldl_cons] at h
    rcases ih _ h with hacc | ⟨req, hreq, hmeets⟩
    · unfold milestone_step at hacc
      split_ifs at hacc with h1 h2
      · exact Or.inl hacc
      · rcases List.mem_append.mp hacc with h3 | h3
        · exact Or.inl h3
        · have hx : x = md.1 := by simpa using h3
          refine Or.inr ⟨md.2, ?_, h2⟩
          rw [hx, Prod.mk.eta]
          exact List.mem_cons_self _ _
      · exact Or.inl hacc
    · exact Or.inr ⟨req, List.mem_cons_of_mem _ hreq, hmeets⟩

theorem check_milestones_mono (metrics : RelationshipMetrics) (x : String)
    (hx : x ∈ achieved_of metrics) :
    x ∈ achieved_of (check_milestones metrics).1 := by
  unfold check_milestones
  split
  · exact hx
  · have h1 : x ∈ (check_milestones_result metrics).1 := by
      unfold check_milestones_result
      exact milestone_fold_mono _ _ _ _ _ x hx
    simpa [achieved_of] using h1

theorem check_milestones_provenance (metrics : RelationshipMetrics) (x : String)
    (h : x ∈ achieved_of (check_milestones metrics).1) :
    x ∈ achieved_of metrics
      ∨ ∃ req, (x, req) ∈ milestone_defs
          ∧ meets_requirements (metrics.total_messages.getD 0)
              (metrics.trust_level.getD (3/10))
              (metrics.emotional_moments_shared.getD 0) req = true := by
  unfold check_milestones at h
  split at h
  · exact Or.inl h
  · replace h : x ∈ (check_milestones_result metrics).1 := by
      simpa [achieved_of] using h
    unfold check_milestones_result at h
    exact milestone_fold_provenance _ _ _ _ _ x h

theorem achieved_of_update (exchange : String) (m : RelationshipMetrics) :
    achieved_of (update_relationship_metrics exchange m) = achieved_of m := by
  simp only [update_relationship_metrics, achieved_of]
  split_ifs <;> rfl

theorem achieved_of_bump (life_event : Option String) (m : RelationshipMetrics) :
    achieved_of (bump_milestones_celebrated life_event m) = achieved_of m := by
  simp only [bump_milestones_celebrated, achieved_of]
  split_ifs <;> rfl

theorem metrics_of_update_bump_eq (exchange : String) (life_event : Option String)
    (m : RelationshipMetrics) :
    analyze_and_update_metrics exchange life_event m
      = check_milestones (update_relationship_metrics exchange
          (bump_milestones_celebrated life_event m)) := rfl

end FriendProfiler

/-- C8: the `achieved_milestones` set is monotonically non-decreasing
across any sequence of profile updates, and an update only ever adds
milestones whose defined thresholds are met by the metrics in force when
`_check_milestones` runs. -/
theorem milestones_monotone :
    (∀ (steps : List (String × Option String))
        (metrics : FriendProfiler.RelationshipMetrics) (x : String),
      x ∈ FriendProfiler.achieved_of metrics →
        x ∈ FriendProfiler.achieved_of
          (FriendProfiler.run_profile_updates steps metrics))
    ∧ (∀ (exchange : String) (life_event : Option String)
          (metrics : FriendProfiler.RelationshipMetrics) (x : String),
        x ∈ FriendProfiler.achieved_of
            ((FriendProfiler.analyze_and_update_metrics exchange life_event metrics).1) →
          x ∈ FriendProfiler.achieved_of metrics
          ∨ ∃ req, (x, req) ∈ FriendProfiler.milestone_defs
              ∧ FriendProfiler.meets_requirements
                  ((FriendProfiler.update_relationship_metrics exchange
                    (FriendProfiler.bump_milestones_celebrated life_event
                      metrics)).total_messages.getD 0)
                  ((FriendProfiler.update_relationship_metrics exchange
                    (FriendProfiler.bump_milestones_celebrated life_event
                      metrics)).trust_level.getD (3/10))
                  ((FriendProfiler.update_relationship_metrics exchange
                    (FriendProfiler.bump_milestones_celebrated life_event
                      metrics)).emotional_moments_shared.getD 0) req = true) := by
  constructor
  · intro steps
    induction steps with
    | nil =>
      intro m x hx
      exact hx
    | cons s steps ih =>
      intro m x hx
      show x ∈ FriendProfiler.achieved_of
        (List.foldl _ ((FriendProfiler.analyze_and_update_metrics s.1 s.2 m).1) steps)
      refine ih _ x ?_
      rw [FriendProfiler.metrics_of_update_bump_eq]
      refine FriendProfiler.check_milestones_mono _ x ?_
      rw [FriendProfiler.achieved_of_update, FriendProfiler.achieved_of_bump]
      exact hx
  · intro exchange life_event m x hx
    rw [FriendProfiler.metrics_of_update_bump_eq] at hx
    rcases FriendProfiler.check_milestones_provenance _ x hx with h | ⟨req, hreq, hm⟩
    · left
      rwa [FriendProfiler.achieved_of_update, FriendProfiler.achieved_of_bump] at h
    · right
      exact ⟨req, hreq, hm⟩

/-- C8 witness: the initial milestone "first_steps" survives an update. -/
theorem milestones_monotone_witness :
    "first_steps" ∈ FriendProfiler.achieved_of
      (FriendProfiler.run_profile_updates [("User: hello", none)] empty_metrics) :=
  milestones_monotone.1 [("User: hello", none)] empty_metrics "first_steps" (by decide)
